import Mathlib

/-
Verification of `src/scripts/run_compile_loop.py`:

  source = sys.argv[1] if len(sys.argv) > 1 else '42'
  run(['node', 'dist/main.js'], input=source.encode())

The script is embedded shallowly: `selectSource` is line 7, and the single
`subprocess.run` call of line 8 is modelled three ways, all derived from the
same line of source: as the list of process calls made (`runCompileLoop`),
as the invoker's outcome given the environment's behaviour for the child
(`invokerOutcome`), and as the ordered event trace of one run (`runTrace`).
`sys.argv` is modelled as Python defines it: element 0 is the program name,
command-line arguments start at index 1.
-/

namespace RunCompileLoop

/-- UTF-8 bytes of one character, as plain naturals. -/
def encodeChar (c : Char) : List Nat :=
  (String.utf8EncodeChar c).map UInt8.toNat

/-- Python `str.encode()` with its default encoding: the UTF-8 bytes of the
string, with nothing prepended or appended. -/
def encode (s : String) : List Nat :=
  s.data.flatMap encodeChar

/-- Line 7 of the script: `source = sys.argv[1] if len(sys.argv) > 1 else '42'`. -/
def selectSource (argv : List String) : String :=
  if h : 1 < argv.length then argv.get ⟨1, h⟩ else "42"

/-- The fixed command of line 8: `['node', 'dist/main.js']`. -/
def nodeCmd : List String :=
  ["node", "dist/main.js"]

/-- One call to `subprocess.run`: the command, the bytes passed as `input=`,
and the `capture_output` and `check` keyword arguments that govern whether
the child's output is captured and whether a non-zero exit raises. -/
structure RunCall where
  cmd : List String
  input : List Nat
  captureOutput : Bool
  check : Bool
deriving DecidableEq, Repr

/-- The single call the script performs on line 8. `capture_output` and
`check` are not passed at the call site, so they take their documented
defaults, both `False`. -/
def theRunCall (argv : List String) : RunCall :=
  ⟨nodeCmd, encode (selectSource argv), false, false⟩

/-- The list of process calls a run of the script performs, in order. -/
def runCompileLoop (argv : List String) : List RunCall :=
  [theRunCall argv]

/-- All bytes written to children's standard input over a list of calls. -/
def stdinPayload (calls : List RunCall) : List Nat :=
  calls.flatMap RunCall.input

/-- How the environment resolves a spawn attempt: the executable is missing
(Python raises `FileNotFoundError`), or the child runs and exits with a
status code. -/
inductive SpawnResult where
  | spawnError
  | exited (code : Int)
deriving DecidableEq, Repr

/-- The invoker's observable result: an uncaught exception (hence a
non-zero exit of the invoking process), or normal completion. -/
inductive Outcome where
  | raised
  | completed
deriving DecidableEq, Repr

/-- Documented semantics of `subprocess.run`: a spawn failure raises; when
the child exits, `CalledProcessError` is raised exactly when `check` is true
and the status is non-zero, otherwise the completed process is returned. -/
def subprocessRun (call : RunCall) (res : SpawnResult) : Except Unit Int :=
  match res with
  | .spawnError => .error ()
  | .exited code => if call.check = true ∧ code ≠ 0 then .error () else .ok code

/-- The outcome of the whole script: line 8 is the last statement, its
result is discarded, and no exception is caught anywhere. -/
def invokerOutcome (argv : List String) (res : SpawnResult) : Outcome :=
  match subprocessRun (theRunCall argv) res with
  | .error _ => .raised
  | .ok _ => .completed

/-- Observable events of one successful run, in order. -/
inductive Event where
  | spawn (cmd : List String)
  | writeStdin (bytes : List Nat)
  | closeStdin
  | waitExit (code : Int)
  | invokerDone
deriving DecidableEq, Repr

/-- Documented behaviour of `run(cmd, input=payload)` when the child spawns
and exits with `code`: spawn the command, write the whole payload to the
child's standard input, close that stream, wait for the child to exit, and
only then return, after which the script ends. -/
def runTrace (argv : List String) (code : Int) : List Event :=
  [Event.spawn nodeCmd,
   Event.writeStdin (encode (selectSource argv)),
   Event.closeStdin,
   Event.waitExit code,
   Event.invokerDone]

def isWrite : Event → Bool
  | .writeStdin _ => true
  | _ => false

def isClose : Event → Bool
  | .closeStdin => true
  | _ => false

def isWait : Event → Bool
  | .waitExit _ => true
  | _ => false

def isDone : Event → Bool
  | .invokerDone => true
  | _ => false

/-- All bytes written to the child's standard input along a trace. -/
def writtenBytes (t : List Event) : List Nat :=
  t.flatMap fun e =>
    match e with
    | .writeStdin bs => bs
    | _ => []

/-- Line 7 picks the first command-line argument when one is present. -/
theorem selectSource_cons (p a : String) (l : List String) :
    selectSource (p :: a :: l) = a := by
  simp [selectSource]

/-- With at most the program name present, line 7 picks the default. -/
theorem selectSource_default (argv : List String) (h : argv.length ≤ 1) :
    selectSource argv = "42" := by
  unfold selectSource
  rw [dif_neg (Nat.not_lt.mpr h)]

/-- The payload of a single-call list is that call's input bytes. -/
theorem stdinPayload_single (c : RunCall) : stdinPayload [c] = c.input := by
  simp [stdinPayload]

/-- Claim C1: with at least one command-line argument, the payload written
to the child's standard input is exactly the UTF-8 bytes of the first
argument, nothing more; in particular argument "hello" yields exactly the
five bytes of "hello". -/
theorem argument_passthrough (p a : String) (rest : List String) :
    stdinPayload (runCompileLoop (p :: a :: rest)) = encode a ∧
    stdinPayload (runCompileLoop [p, "hello"]) = [104, 101, 108, 108, 111] := by
  constructor
  · rw [runCompileLoop, stdinPayload_single, theRunCall, selectSource_cons]
  · rw [runCompileLoop, stdinPayload_single, theRunCall, selectSource_cons]
    decide

/-- Claim C2: with zero command-line arguments (so `sys.argv` holds at most
the program name), the payload sent to the child is exactly the bytes of
the literal string "42". -/
theorem default_selection (argv : List String) (h : argv.length ≤ 1) :
    stdinPayload (runCompileLoop argv) = encode "42" ∧
    stdinPayload (runCompileLoop argv) = [52, 50] := by
  rw [runCompileLoop, stdinPayload_single, theRunCall, selectSource_default argv h]
  exact ⟨rfl, by decide⟩

/-- Witness for C2 at the concrete invocation with no arguments. -/
theorem default_selection_witness :
    (["run_compile_loop.py"] : List String).length ≤ 1 ∧
    stdinPayload (runCompileLoop ["run_compile_loop.py"]) = [52, 50] :=
  ⟨by decide, (default_selection ["run_compile_loop.py"] (by decide)).2⟩

/-- Claim C3 as stated is false: when the child exits with status 1 (a
non-zero status), the invoker completes normally instead of raising, because
line 8 calls `subprocess.run` without `check=True` and discards its result. -/
theorem nonzero_exit_not_propagated :
    (1 : Int) ≠ 0 ∧
    invokerOutcome ["run_compile_loop.py"] (SpawnResult.exited 1) = Outcome.completed ∧
    invokerOutcome ["run_compile_loop.py"] (SpawnResult.exited 1) ≠ Outcome.raised := by
  refine ⟨by decide, rfl, ?_⟩
  intro h
  exact Outcome.noConfusion h

/-- Claim C3 amended: a non-zero child exit status does not propagate to the
invoker; for every invocation whose child exits non-zero, the invoker still
completes normally, exactly as when the child succeeds. -/
theorem nonzero_exit_completes (argv : List String) (code : Int) (_h : code ≠ 0) :
    invokerOutcome argv (SpawnResult.exited code) = Outcome.completed := by
  simp [invokerOutcome, subprocessRun, theRunCall]

/-- Witness for the amended C3 at exit status 1 with no arguments. -/
theorem nonzero_exit_completes_witness :
    (1 : Int) ≠ 0 ∧
    invokerOutcome ["run_compile_loop.py"] (SpawnResult.exited 1) = Outcome.completed :=
  ⟨by decide, nonzero_exit_completes ["run_compile_loop.py"] 1 (by decide)⟩

/-- Claim C4: the single call captures neither standard output nor standard
error and does not check the exit status, and the invoker's observable
result after the child exits is the same whatever the exit status was. -/
theorem child_result_not_inspected (argv : List String) (c1 c2 : Int) :
    (runCompileLoop argv).map RunCall.captureOutput = [false] ∧
    (runCompileLoop argv).map RunCall.check = [false] ∧
    invokerOutcome argv (SpawnResult.exited c1) = invokerOutcome argv (SpawnResult.exited c2) := by
  refine ⟨rfl, rfl, ?_⟩
  simp [invokerOutcome, subprocessRun, theRunCall]

/-- Claim C5: when the child executable cannot be found, the spawn attempt
raises and the invoker's outcome is a raised error, never normal
completion. -/
theorem missing_executable_raises (argv : List String) :
    invokerOutcome argv SpawnResult.spawnError = Outcome.raised ∧
    invokerOutcome argv SpawnResult.spawnError ≠ Outcome.completed := by
  refine ⟨rfl, ?_⟩
  intro h
  exact Outcome.noConfusion h

/-- Claim C6: every run starts exactly one child process, whatever the
argument list. -/
theorem single_invocation (argv : List String) :
    (runCompileLoop argv).length = 1 := rfl

/-- Claim C7: any two invocations spawn the same fixed command, the
constant `['node', 'dist/main.js']`; the arguments never influence the
identity of the launched command. -/
theorem fixed_command (argv1 argv2 : List String) :
    (runCompileLoop argv1).map RunCall.cmd = (runCompileLoop argv2).map RunCall.cmd ∧
    (runCompileLoop argv1).map RunCall.cmd = [["node", "dist/main.js"]] :=
  ⟨rfl, rfl⟩

/-- Claim C8: in the event trace of a run, the whole payload is written and
the child's standard input closed strictly before the wait for the child's
exit, and the invoker finishes only strictly after that wait; the bytes
written along the trace are exactly the selected payload. -/
theorem blocking_completion (argv : List String) (code : Int) :
    (runTrace argv code).findIdx isWrite < (runTrace argv code).findIdx isWait ∧
    (runTrace argv code).findIdx isClose < (runTrace argv code).findIdx isWait ∧
    (runTrace argv code).findIdx isWait < (runTrace argv code).findIdx isDone ∧
    (runTrace argv code).findIdx isDone < (runTrace argv code).length ∧
    writtenBytes (runTrace argv code) = encode (selectSource argv) := by
  simp [runTrace, List.findIdx_cons, isWrite, isClose, isWait, isDone, writtenBytes]

/-- Claim C9: an invocation whose first command-line argument is the empty
string sends the empty byte sequence to the child, not the default "42":
the default applies only when the argument is absent. -/
theorem empty_argument_payload (p : String) (rest : List String) :
    stdinPayload (runCompileLoop (p :: "" :: rest)) = [] ∧
    encode "42" ≠ ([] : List Nat) := by
  constructor
  · rw [runCompileLoop, stdinPayload_single, theRunCall, selectSource_cons]
    rfl
  · decide

/-- Claim C10: with two or more command-line arguments, everything after
the first is ignored: the run performs exactly the same process calls, with
the same command and the same payload, as a run given only the first
argument. -/
theorem extra_arguments_ignored (p a : String) (rest : List String) :
    runCompileLoop (p :: a :: rest) = runCompileLoop [p, a] := by
  rw [runCompileLoop, runCompileLoop, theRunCall, theRunCall,
    selectSource_cons, selectSource_cons]

end RunCompileLoop
